import Mathlib

/-!
Shallow embedding of the vortex process-tweet switchboard function
(`src/switchboard-function/src/main.rs` and `src/switchboard-function/src/params.rs`):
parameter decoding, tweet-eligibility evaluation, point calculation and
settlement-instruction encoding, together with proofs of the specified properties.

Conventions: bytes and code points are `Nat`; `u64` values are `Nat` with wrapping
modelled as `% 2^64` where the Rust code performs unchecked `u64` arithmetic
(release-profile semantics); Rust `Result` plus the possibility of a panic
(an `unwrap` of `None`/`Err`) is the three-way `Outcome` type.
-/

namespace Vortex

/-- Outcome of a fallible Rust computation: `Ok`, `Err(SbError::CustomMessage msg)`,
or a panic from an `unwrap` on `None`/`Err`. -/
inductive Outcome (α : Type) where
  | ok (a : α)
  | err (msg : String)
  | panic
  deriving DecidableEq

/-- Code points of a string literal (all literals used by the program are ASCII). -/
def strCodes (s : String) : List Nat := s.data.map Char.toNat

/-- UTF-8 continuation byte (`0x80..=0xBF`). -/
def isCont (b : Nat) : Bool := 128 ≤ b && b ≤ 191

/-- UTF-8 validation and decoding of a byte list into code points, with the validity
rules of Rust `String::from_utf8` (shortest-form encodings only, surrogates rejected);
`none` means the bytes are not valid UTF-8. -/
def utf8Decode : List Nat → Option (List Nat)
  | [] => some []
  | b0 :: rest =>
    if b0 ≤ 127 then
      (utf8Decode rest).map (b0 :: ·)
    else
      match rest with
      | [] => none
      | b1 :: rest1 =>
        if 194 ≤ b0 && b0 ≤ 223 && isCont b1 then
          (utf8Decode rest1).map (((b0 - 192) * 64 + (b1 - 128)) :: ·)
        else
          match rest1 with
          | [] => none
          | b2 :: rest2 =>
            if (b0 == 224 && 160 ≤ b1 && b1 ≤ 191 && isCont b2)
                || (225 ≤ b0 && b0 ≤ 236 && isCont b1 && isCont b2)
                || (b0 == 237 && 128 ≤ b1 && b1 ≤ 159 && isCont b2)
                || (238 ≤ b0 && b0 ≤ 239 && isCont b1 && isCont b2) then
              (utf8Decode rest2).map
                (((b0 - 224) * 4096 + (b1 - 128) * 64 + (b2 - 128)) :: ·)
            else
              match rest2 with
              | [] => none
              | b3 :: rest3 =>
                if (b0 == 240 && 144 ≤ b1 && b1 ≤ 191 && isCont b2 && isCont b3)
                    || (241 ≤ b0 && b0 ≤ 243 && isCont b1 && isCont b2 && isCont b3)
                    || (b0 == 244 && 128 ≤ b1 && b1 ≤ 143 && isCont b2 && isCont b3) then
                  (utf8Decode rest3).map
                    (((b0 - 240) * 262144 + (b1 - 128) * 4096
                      + (b2 - 128) * 64 + (b3 - 128)) :: ·)
                else none

/-- A Solana account address: its 32 bytes. -/
abbrev Pubkey := List Nat

/-- `Pubkey::default()`: the all-zero address. -/
def pubkeyDefault : Pubkey := List.replicate 32 0

/-- The bitcoin base58 alphabet used by the `bs58` crate. -/
def base58Alphabet : List Nat :=
  strCodes "123456789ABCDEFGHJKLMNPQRSTUVWXYZabcdefghijkmnopqrstuvwxyz"

/-- Index of the first occurrence of `c` in a list (the `bs58` character table lookup). -/
def idxInList (c : Nat) : List Nat → Option Nat
  | [] => none
  | a :: as => if a == c then some 0 else (idxInList c as).map (· + 1)

/-- Value of one base58 character; `none` when the character is not in the alphabet. -/
def b58DigitVal (c : Nat) : Option Nat := idxInList c base58Alphabet

/-- Values of all base58 characters of a string; `none` on any invalid character. -/
def b58Digits : List Nat → Option (List Nat)
  | [] => some []
  | c :: cs =>
    match b58DigitVal c, b58Digits cs with
    | some d, some ds => some (d :: ds)
    | _, _ => none

/-- Minimal little-endian byte representation of a natural number (`[]` for zero),
with an explicit fuel bound on the number of produced bytes; the representation is
complete whenever `n < 256 ^ fuel`. -/
def natToBytesLEAux : Nat → Nat → List Nat
  | 0, _ => []
  | fuel + 1, n => if n = 0 then [] else (n % 256) :: natToBytesLEAux fuel (n / 256)

/-- `bs58::decode(s).into_vec()`: fails on a character outside the alphabet; otherwise
the bytes are one zero byte per leading `'1'` followed by the big-endian digits value.
A string of `k` base58 digits has value below `58 ^ k ≤ 256 ^ k`, so `cs.length` is
enough fuel for the minimal byte representation. -/
def bs58DecodeBytes (cs : List Nat) : Option (List Nat) :=
  match b58Digits cs with
  | none => none
  | some ds =>
    some (List.replicate (cs.takeWhile (· == 49)).length 0
      ++ (natToBytesLEAux cs.length (ds.foldl (fun acc d => acc * 58 + d) 0)).reverse)

/-- `Pubkey::from_str`: at most 44 characters and base58-decoding to exactly 32 bytes. -/
def pubkeyFromStr (cs : List Nat) : Option Pubkey :=
  if cs.length > 44 then none
  else
    match bs58DecodeBytes cs with
    | none => none
    | some bs => if bs.length = 32 then some bs else none

/-- `u64::from_str` as used by `NumericId::from_str`: optional leading `'+'` then one
or more ASCII digits, with the value below `2^64`. -/
def parseU64 (cs : List Nat) : Option Nat :=
  let t := match cs with
    | 43 :: rest => rest
    | _ => cs
  if t.isEmpty then none
  else if t.all (fun c => 48 ≤ c && c ≤ 57) then
    let v := t.foldl (fun acc c => acc * 10 + (c - 48)) 0
    if v < 2 ^ 64 then some v else none
  else none

/-- The decoded request parameters (`ContainerParams` in `params.rs`). -/
structure ContainerParams where
  program_id : Pubkey
  realm_pda : Pubkey
  user : Pubkey
  user_account_pda : Pubkey
  twitter_username : List Nat
  tweet_id : Nat
  deriving DecidableEq

/-- The six mutable locals of `ContainerParams::decode` before validation. -/
structure RawFields where
  program_id : Pubkey
  realm_pda : Pubkey
  user : Pubkey
  user_account_pda : Pubkey
  twitter_username : List Nat
  tweet_id : Nat
  deriving DecidableEq

/-- Initial values of the decode locals: `Pubkey::default()`, `String::default()`,
`NumericId::new(0)`. -/
def initFields : RawFields :=
  { program_id := pubkeyDefault, realm_pda := pubkeyDefault, user := pubkeyDefault
    user_account_pda := pubkeyDefault, twitter_username := [], tweet_id := 0 }

/-- `env_pair.splitn(2, '=')`: split on the first `'='` (code 61) only. -/
def splitFirstEq (cs : List Nat) : List (List Nat) :=
  if cs.contains 61 then [cs.takeWhile (· != 61), (cs.dropWhile (· != 61)).tail]
  else [cs]

/-- One iteration of the `for env_pair in params.split(',')` loop body of
`ContainerParams::decode`: entries without an `'='` are skipped, recognized keys set
their field (a value that fails to parse panics via `unwrap`), unrecognized keys are
ignored. -/
def applyPair (f : RawFields) (entry : List Nat) : Outcome RawFields :=
  match splitFirstEq entry with
  | [k, v] =>
    if k = strCodes "PID" then
      match pubkeyFromStr v with
      | some pk => .ok { f with program_id := pk }
      | none => .panic
    else if k = strCodes "REALM_PDA" then
      match pubkeyFromStr v with
      | some pk => .ok { f with realm_pda := pk }
      | none => .panic
    else if k = strCodes "USER" then
      match pubkeyFromStr v with
      | some pk => .ok { f with user := pk }
      | none => .panic
    else if k = strCodes "USER_ACCOUNT_PDA" then
      match pubkeyFromStr v with
      | some pk => .ok { f with user_account_pda := pk }
      | none => .panic
    else if k = strCodes "TWITTER_USERNAME" then
      .ok { f with twitter_username := v }
    else if k = strCodes "TWEET_ID" then
      match parseU64 v with
      | some n => .ok { f with tweet_id := n }
      | none => .panic
    else .ok f
  | _ => .ok f

/-- The whole `for` loop of `ContainerParams::decode` over the comma-split entries. -/
def processEntries (f : RawFields) : List (List Nat) → Outcome RawFields
  | [] => .ok f
  | e :: es =>
    match applyPair f e with
    | .ok f1 => processEntries f1 es
    | .err m => .err m
    | .panic => .panic

/-- The six default-value checks at the end of `ContainerParams::decode`, in source
order. -/
def validateFields (f : RawFields) : Outcome ContainerParams :=
  if f.program_id = pubkeyDefault then .err "PID cannot be undefined"
  else if f.realm_pda = pubkeyDefault then .err "REALM_PDA cannot be undefined"
  else if f.user = pubkeyDefault then .err "USER cannot be undefined"
  else if f.user_account_pda = pubkeyDefault then .err "USER_ACCOUNT_PDA cannot be undefined"
  else if f.twitter_username = [] then .err "TWITTER_USERNAME cannot be undefined"
  else if f.tweet_id = 0 then .err "TWEET_ID cannot be undefined"
  else .ok ⟨f.program_id, f.realm_pda, f.user, f.user_account_pda,
            f.twitter_username, f.tweet_id⟩

/-- `ContainerParams::decode` after the UTF-8 conversion: the split/match loop over
comma-separated entries (`','` is code 44) followed by the default-value validation. -/
def decodeChars (cs : List Nat) : Outcome ContainerParams :=
  match processEntries initFields (cs.splitOn 44) with
  | .ok f => validateFields f
  | .err m => .err m
  | .panic => .panic

/-- `ContainerParams::decode` on the raw byte blob:
`String::from_utf8(container_params.clone()).unwrap()` panics on invalid UTF-8, then
the key/value loop and the validation run on the decoded text. -/
def ContainerParams.decode (container_params : List Nat) : Outcome ContainerParams :=
  match utf8Decode container_params with
  | none => .panic
  | some cs => decodeChars cs

/-- `twitter_v2` public engagement metrics (`usize` counters, `quote_count` optional). -/
structure PublicMetrics where
  retweet_count : Nat
  reply_count : Nat
  like_count : Nat
  quote_count : Option Nat
  deriving DecidableEq

/-- The parts of a `twitter_v2::Tweet` read by this program. `withheld` keeps only
presence (`is_some` is all the code inspects); `created_at` is a unix timestamp. -/
structure Tweet where
  created_at : Option Int
  text : List Nat
  withheld : Option Unit
  public_metrics : Option PublicMetrics
  deriving DecidableEq

/-- Boolean prefix test on code-point lists. -/
def isPrefixOfL : List Nat → List Nat → Bool
  | [], _ => true
  | _ :: _, [] => false
  | a :: as, b :: bs => a == b && isPrefixOfL as bs

/-- Rust `str::contains` for an ASCII pattern: exact substring occurrence. -/
def containsSub (pat : List Nat) : List Nat → Bool
  | [] => isPrefixOfL pat []
  | hd :: rest => isPrefixOfL pat (hd :: rest) || containsSub pat rest

/-- `assert_tweet_eligibility`, with the ambient `chrono::Utc::now().timestamp()`
passed explicitly as `now_timestamp`; `tweet.created_at.unwrap()` panics when the
timestamp is absent. The four checks run in source order and the first failure wins. -/
def assert_tweet_eligibility (tweet : Tweet) (now_timestamp : Int) : Outcome Unit :=
  match tweet.created_at with
  | none => .panic
  | some created =>
    if created ≥ now_timestamp - 4 * 3600 then
      .err "tweet must be at least 4h old"
    else if !containsSub (strCodes "$VTX") tweet.text then
      .err "tweet must contain $VTX"
    else if !containsSub (strCodes "@Vortexcoin") tweet.text then
      .err "tweet must contain @Vortexcoin"
    else if tweet.withheld.isSome then
      .err "tweet is withheld"
    else .ok ()

def LIKE_MULTIPLIER : Nat := 1
def REPLY_MULTIPLIER : Nat := 1
def QUOTE_MULTIPLIER : Nat := 1
def RETWEET_MULTIPLIER : Nat := 1

/-- `calculate_tweet_points`: unwraps `public_metrics` and `quote_count` (panicking
when absent), casts each `usize` counter `as u64`, and combines them with unchecked
`u64` arithmetic — every operation wraps modulo `2^64`. -/
def calculate_tweet_points (tweet : Tweet) : Outcome Nat :=
  match tweet.public_metrics with
  | none => .panic
  | some m =>
    match m.quote_count with
    | none => .panic
    | some q =>
      let like_count := m.like_count % 2 ^ 64
      let reply_count := m.reply_count % 2 ^ 64
      let quote_count := q % 2 ^ 64
      let retweet_count := m.retweet_count % 2 ^ 64
      .ok ((((like_count * LIKE_MULTIPLIER % 2 ^ 64
            + reply_count * REPLY_MULTIPLIER % 2 ^ 64) % 2 ^ 64
            + quote_count * QUOTE_MULTIPLIER % 2 ^ 64) % 2 ^ 64
            + retweet_count * RETWEET_MULTIPLIER % 2 ^ 64) % 2 ^ 64)

/-- Little-endian bytes of `n` as a `k`-byte unsigned integer
(`u64::to_le_bytes` is `k = 8`). -/
def natToLeBytes : Nat → Nat → List Nat
  | 0, _ => []
  | k + 1, n => (n % 256) :: natToLeBytes k (n / 256)

/-- Read a little-endian byte list back as an unsigned integer. -/
def leBytesToNat : List Nat → Nat
  | [] => 0
  | b :: bs => b + 256 * leBytesToNat bs

/-- `ixn_data` in `main`: the 8-byte method discriminator followed by
`points.to_le_bytes()` appended. -/
def buildIxnData (disc : List Nat) (points : Nat) : List Nat :=
  disc ++ natToLeBytes 8 points

/-- `solana_program::instruction::AccountMeta`. -/
structure AccountMeta where
  pubkey : Pubkey
  is_signer : Bool
  is_writable : Bool
  deriving DecidableEq

/-- `AccountMeta::new`: a writable account reference. -/
def AccountMeta.new (pk : Pubkey) (s : Bool) : AccountMeta := ⟨pk, s, true⟩

/-- `AccountMeta::new_readonly`: a read-only account reference. -/
def AccountMeta.new_readonly (pk : Pubkey) (s : Bool) : AccountMeta := ⟨pk, s, false⟩

/-- `solana_program::instruction::Instruction`. -/
structure Instruction where
  program_id : Pubkey
  data : List Nat
  accounts : List AccountMeta
  deriving DecidableEq

/-- The runner-provided identities `main` reads from the `FunctionRunner`. -/
structure FunctionRunnerKeys where
  signer : Pubkey
  function : Pubkey
  function_request_key : Option Pubkey

/-- The `settle_ixn` construction in `main`:
`runner.function_request_key.unwrap()` panics when absent, otherwise the instruction
carries the seven account references in source order. -/
def settle_ixn (runner : FunctionRunnerKeys) (params : ContainerParams)
    (ixn_data : List Nat) : Outcome Instruction :=
  match runner.function_request_key with
  | none => .panic
  | some freq =>
    .ok { program_id := params.program_id
          data := ixn_data
          accounts := [
            AccountMeta.new_readonly runner.signer true,
            AccountMeta.new_readonly params.user false,
            AccountMeta.new params.realm_pda false,
            AccountMeta.new params.user_account_pda false,
            AccountMeta.new params.user_account_pda false,
            AccountMeta.new_readonly runner.function false,
            AccountMeta.new_readonly freq false] }

/-! ### Analysis helpers for the decode loop -/

/-- The key part of one comma-separated entry: the text before the first `'='`, or
the whole entry when it has none. -/
def entryKey (e : List Nat) : List Nat := (splitFirstEq e).headD []

/-- The effect of a single key/value entry on the decode locals: a no-op, a panic
from an unparsable value, or the setting of exactly one field. -/
inductive EntryAct where
  | noop
  | failed
  | setPid (pk : Pubkey)
  | setRealm (pk : Pubkey)
  | setUser (pk : Pubkey)
  | setUap (pk : Pubkey)
  | setUname (v : List Nat)
  | setTid (n : Nat)

/-- The action an entry performs, mirroring the branch structure of `applyPair`
(the bridge is proved in `applyPair_eq_runAct`). -/
def entryAct (entry : List Nat) : EntryAct :=
  match splitFirstEq entry with
  | [k, v] =>
    if k = strCodes "PID" then
      match pubkeyFromStr v with
      | some pk => .setPid pk
      | none => .failed
    else if k = strCodes "REALM_PDA" then
      match pubkeyFromStr v with
      | some pk => .setRealm pk
      | none => .failed
    else if k = strCodes "USER" then
      match pubkeyFromStr v with
      | some pk => .setUser pk
      | none => .failed
    else if k = strCodes "USER_ACCOUNT_PDA" then
      match pubkeyFromStr v with
      | some pk => .setUap pk
      | none => .failed
    else if k = strCodes "TWITTER_USERNAME" then .setUname v
    else if k = strCodes "TWEET_ID" then
      match parseU64 v with
      | some n => .setTid n
      | none => .failed
    else .noop
  | _ => .noop

/-- Apply an entry action to the decode locals. -/
def runAct (f : RawFields) : EntryAct → Outcome RawFields
  | .noop => .ok f
  | .failed => .panic
  | .setPid pk => .ok { f with program_id := pk }
  | .setRealm pk => .ok { f with realm_pda := pk }
  | .setUser pk => .ok { f with user := pk }
  | .setUap pk => .ok { f with user_account_pda := pk }
  | .setUname v => .ok { f with twitter_username := v }
  | .setTid n => .ok { f with tweet_id := n }

/-- The recognized key a field-setting action answers to (`none` for actions that
set no field). -/
def actKey : EntryAct → Option (List Nat)
  | .noop => none
  | .failed => none
  | .setPid _ => some (strCodes "PID")
  | .setRealm _ => some (strCodes "REALM_PDA")
  | .setUser _ => some (strCodes "USER")
  | .setUap _ => some (strCodes "USER_ACCOUNT_PDA")
  | .setUname _ => some (strCodes "TWITTER_USERNAME")
  | .setTid _ => some (strCodes "TWEET_ID")

/-- The SPL token program address, the concrete well-formed account address the
repository's own decode test uses. -/
def tokenProgramStr : List Nat := strCodes "TokenkegQfeZyiNwAJbNbGKPFXCWuBvf9Ss623VQ5DA"

/-- The 32 bytes of the SPL token program address. -/
def tokenProgramPk : Pubkey :=
  [6, 221, 246, 225, 215, 101, 161, 147, 217, 203, 225, 70, 206, 235, 121, 172,
   28, 180, 133, 237, 95, 91, 55, 145, 58, 140, 245, 133, 126, 255, 0, 169]

/-- The wrapped-SOL mint address, a second distinct well-formed account address. -/
def wrappedSolStr : List Nat := strCodes "So11111111111111111111111111111111111111112"

/-- The 32 bytes of the wrapped-SOL mint address. -/
def wrappedSolPk : Pubkey :=
  [6, 155, 136, 87, 254, 171, 129, 132, 251, 104, 127, 99, 70, 24, 192, 53,
   218, 196, 57, 220, 26, 235, 59, 85, 152, 160, 240, 0, 0, 0, 0, 1]

/-- A concrete input that sets the five other required fields validly but carries no
`TWEET_ID` pair. -/
def noTweetIdInput : List Nat :=
  strCodes "PID=TokenkegQfeZyiNwAJbNbGKPFXCWuBvf9Ss623VQ5DA,REALM_PDA=TokenkegQfeZyiNwAJbNbGKPFXCWuBvf9Ss623VQ5DA,USER=So11111111111111111111111111111111111111112,USER_ACCOUNT_PDA=TokenkegQfeZyiNwAJbNbGKPFXCWuBvf9Ss623VQ5DA,TWITTER_USERNAME=elonmusk"

/-- The other five required key/value pairs (with a leading comma), used as the fixed
remainder of a duplicate-key input `PID=A,PID=B,<other required fields>`. -/
def otherFieldsStr : List Nat :=
  strCodes ",REALM_PDA=TokenkegQfeZyiNwAJbNbGKPFXCWuBvf9Ss623VQ5DA,USER=So11111111111111111111111111111111111111112,USER_ACCOUNT_PDA=TokenkegQfeZyiNwAJbNbGKPFXCWuBvf9Ss623VQ5DA,TWITTER_USERNAME=elonmusk,TWEET_ID=1730464228400631814"

/-! ### Generic lemmas about the byte-level encoders -/

theorem natToLeBytes_length (k n : Nat) : (natToLeBytes k n).length = k := by
  induction k generalizing n with
  | zero => rfl
  | succ k ih => simp [natToLeBytes, ih]

theorem leBytesToNat_natToLeBytes (k n : Nat) :
    leBytesToNat (natToLeBytes k n) = n % 256 ^ k := by
  induction k generalizing n with
  | zero => simp [natToLeBytes, leBytesToNat, Nat.mod_one]
  | succ k ih =>
    rw [natToLeBytes, leBytesToNat, ih, Nat.pow_succ', Nat.mod_mul]

/-! ### C1: settlement payload layout and round-trip -/

/-- C1: for every 8-byte method discriminator and every score below `2^64`, the
payload built in `main` is exactly 16 bytes, bytes 0..8 are the discriminator,
bytes 8..16 are the score little-endian, and reading bytes 0..8 and the
little-endian value of bytes 8..16 recovers discriminator and score unchanged. -/
theorem ixn_data_roundtrip (disc : List Nat) (score : Nat)
    (hdisc : disc.length = 8) (hscore : score < 2 ^ 64) :
    (buildIxnData disc score).length = 16 ∧
    (buildIxnData disc score).take 8 = disc ∧
    (buildIxnData disc score).drop 8 = natToLeBytes 8 score ∧
    leBytesToNat ((buildIxnData disc score).drop 8) = score := by
  have hlen : (natToLeBytes 8 score).length = 8 := natToLeBytes_length 8 score
  refine ⟨?_, ?_, ?_, ?_⟩
  · simp [buildIxnData, hdisc, hlen]
  · simpa [buildIxnData] using List.take_left' hdisc
  · simpa [buildIxnData] using List.drop_left' hdisc
  · rw [buildIxnData, List.drop_left' hdisc, leBytesToNat_natToLeBytes]
    exact Nat.mod_eq_of_lt (by norm_num at hscore ⊢; omega)

/-- Witness for C1 at the `process_tweet_settle` anchor discriminator and score 16. -/
theorem ixn_data_roundtrip_witness :
    ([115, 114, 114, 182, 30, 137, 109, 145] : List Nat).length = 8 ∧
    16 < 2 ^ 64 ∧
    ((buildIxnData [115, 114, 114, 182, 30, 137, 109, 145] 16).length = 16 ∧
     (buildIxnData [115, 114, 114, 182, 30, 137, 109, 145] 16).take 8 =
       [115, 114, 114, 182, 30, 137, 109, 145] ∧
     (buildIxnData [115, 114, 114, 182, 30, 137, 109, 145] 16).drop 8 =
       natToLeBytes 8 16 ∧
     leBytesToNat ((buildIxnData [115, 114, 114, 182, 30, 137, 109, 145] 16).drop 8) = 16) :=
  ⟨by decide, by decide,
   ixn_data_roundtrip [115, 114, 114, 182, 30, 137, 109, 145] 16 (by decide) (by decide)⟩

/-! ### C2: the 4-hour boundary is rejected -/

/-- C2: an attestation whose `created_at` equals `now - 14400` exactly (age exactly
4 hours) is rejected by `assert_tweet_eligibility` with the too-recent error — the
pass condition is strictly more than 4 hours of age. -/
theorem eligibility_boundary_rejected (tweet : Tweet) (now_timestamp ts : Int)
    (hts : tweet.created_at = some ts) (hb : ts = now_timestamp - 14400) :
    assert_tweet_eligibility tweet now_timestamp = .err "tweet must be at least 4h old" := by
  simp only [assert_tweet_eligibility, hts]
  rw [if_pos (by omega)]

/-- Witness for C2: a tweet created at time 0 evaluated at `now = 14400`. -/
theorem eligibility_boundary_rejected_witness :
    (⟨some 0, [], none, none⟩ : Tweet).created_at = some 0 ∧
    (0 : Int) = 14400 - 14400 ∧
    assert_tweet_eligibility ⟨some 0, [], none, none⟩ 14400 =
      .err "tweet must be at least 4h old" :=
  ⟨rfl, by decide, eligibility_boundary_rejected ⟨some 0, [], none, none⟩ 14400 0 rfl (by decide)⟩

/-! ### C3: check order — missing tag wins over withheld -/

/-- C3: the eligibility checks run in the fixed source order (too recent, missing
`$VTX` tag, missing `@Vortexcoin` mention, withheld) and the first failure is the
reported reason: an attestation that is old enough, lacks the `$VTX` substring and is
also withheld is rejected for the missing tag, not for being withheld. -/
theorem eligibility_tag_before_withheld (tweet : Tweet) (now_timestamp ts : Int)
    (hts : tweet.created_at = some ts) (hold : ts < now_timestamp - 14400)
    (htag : containsSub (strCodes "$VTX") tweet.text = false)
    (_hwith : tweet.withheld.isSome) :
    assert_tweet_eligibility tweet now_timestamp = .err "tweet must contain $VTX" := by
  simp only [assert_tweet_eligibility, hts]
  rw [if_neg (by omega), if_pos (by simp [htag])]

/-- Witness for C3: an old, withheld tweet with empty text. -/
theorem eligibility_tag_before_withheld_witness :
    (⟨some 0, [], some (), none⟩ : Tweet).created_at = some 0 ∧
    (0 : Int) < 20000 - 14400 ∧
    containsSub (strCodes "$VTX") (⟨some 0, [], some (), none⟩ : Tweet).text = false ∧
    (⟨some 0, [], some (), none⟩ : Tweet).withheld.isSome ∧
    assert_tweet_eligibility ⟨some 0, [], some (), none⟩ 20000 =
      .err "tweet must contain $VTX" :=
  ⟨rfl, by decide, by decide, rfl,
   eligibility_tag_before_withheld ⟨some 0, [], some (), none⟩ 20000 0 rfl (by decide)
     (by decide) rfl⟩

/-! ### C4: the settlement instruction's account list -/

/-- C4: on every successful construction, the settlement instruction carries exactly
7 account references in the fixed source order — enclave signer (read-only, signer),
user (read-only), realm (writable), user-record account (writable, listed twice),
function (read-only), function request key (read-only) — and the enclave signer is
the only slot flagged as signer. -/
theorem settle_ixn_accounts (runner : FunctionRunnerKeys) (params : ContainerParams)
    (ixn_data : List Nat) (freq : Pubkey)
    (hreq : runner.function_request_key = some freq) :
    ∃ ixn, settle_ixn runner params ixn_data = .ok ixn ∧
      ixn.program_id = params.program_id ∧ ixn.data = ixn_data ∧
      ixn.accounts =
        [AccountMeta.new_readonly runner.signer true,
         AccountMeta.new_readonly params.user false,
         AccountMeta.new params.realm_pda false,
         AccountMeta.new params.user_account_pda false,
         AccountMeta.new params.user_account_pda false,
         AccountMeta.new_readonly runner.function false,
         AccountMeta.new_readonly freq false] ∧
      ixn.accounts.length = 7 ∧
      ixn.accounts.map AccountMeta.is_signer =
        [true, false, false, false, false, false, false] ∧
      ixn.accounts.map AccountMeta.is_writable =
        [false, false, true, true, true, false, false] := by
  refine ⟨⟨params.program_id, ixn_data,
    [AccountMeta.new_readonly runner.signer true,
     AccountMeta.new_readonly params.user false,
     AccountMeta.new params.realm_pda false,
     AccountMeta.new params.user_account_pda false,
     AccountMeta.new params.user_account_pda false,
     AccountMeta.new_readonly runner.function false,
     AccountMeta.new_readonly freq false]⟩, ?_, rfl, rfl, rfl, rfl, rfl, rfl⟩
  simp [settle_ixn, hreq]

/-- Witness for C4 at concrete keys. -/
theorem settle_ixn_accounts_witness :
    (⟨[1], [2], some [3]⟩ : FunctionRunnerKeys).function_request_key = some [3] ∧
    (∃ ixn, settle_ixn ⟨[1], [2], some [3]⟩ ⟨[4], [5], [6], [7], [8], 9⟩ [0] = .ok ixn ∧
      ixn.program_id = ([4] : Pubkey) ∧ ixn.data = [0] ∧
      ixn.accounts =
        [AccountMeta.new_readonly [1] true,
         AccountMeta.new_readonly [6] false,
         AccountMeta.new [5] false,
         AccountMeta.new [7] false,
         AccountMeta.new [7] false,
         AccountMeta.new_readonly [2] false,
         AccountMeta.new_readonly [3] false] ∧
      ixn.accounts.length = 7 ∧
      ixn.accounts.map AccountMeta.is_signer =
        [true, false, false, false, false, false, false] ∧
      ixn.accounts.map AccountMeta.is_writable =
        [false, false, true, true, true, false, false]) :=
  ⟨rfl, settle_ixn_accounts ⟨[1], [2], some [3]⟩ ⟨[4], [5], [6], [7], [8], 9⟩ [0] [3] rfl⟩

/-! ### C5: invalid UTF-8 input — the code panics instead of returning an error -/

/-- C5 counterexample: on the invalid-UTF-8 byte `[255]`, `ContainerParams::decode`
panics (the `String::from_utf8(...).unwrap()` crashes); it does not return any
`MalformedInput`-style error value. -/
theorem decode_invalid_utf8_cex : ContainerParams.decode [255] = .panic := by decide

/-- C5 amended: for every byte sequence that is not valid UTF-8, parameter decoding
panics (a crash via `unwrap`), rather than returning a `MalformedInput` error. -/
theorem decode_invalid_utf8_panics (bs : List Nat) (h : utf8Decode bs = none) :
    ContainerParams.decode bs = .panic := by
  simp [ContainerParams.decode, h]

/-- Witness for the amended C5 at a surrogate-range byte sequence. -/
theorem decode_invalid_utf8_panics_witness :
    utf8Decode [237, 160, 128] = none ∧ ContainerParams.decode [237, 160, 128] = .panic :=
  ⟨by decide, decode_invalid_utf8_panics [237, 160, 128] (by decide)⟩

/-! ### C6: absent quote_count — the code panics instead of returning an error -/

/-- C6 counterexample: on a tweet whose metrics are present but whose `quote_count`
is absent, `calculate_tweet_points` panics (`metrics.quote_count.unwrap()`); it does
not return a `MissingMetric`-style error value. -/
theorem calculate_points_missing_quote_cex :
    calculate_tweet_points ⟨some 0, [], none, some ⟨3, 2, 5, none⟩⟩ = .panic := by decide

/-- C6 amended: for every attestation whose engagement metrics are present but whose
`quote_count` is absent, the score computation panics (a crash via `unwrap`), rather
than returning a `MissingMetric` error. -/
theorem calculate_points_missing_quote (tweet : Tweet) (m : PublicMetrics)
    (hm : tweet.public_metrics = some m) (hq : m.quote_count = none) :
    calculate_tweet_points tweet = .panic := by
  simp [calculate_tweet_points, hm, hq]

/-- Witness for the amended C6. -/
theorem calculate_points_missing_quote_witness :
    (⟨some 0, [], none, some ⟨1, 1, 1, none⟩⟩ : Tweet).public_metrics = some ⟨1, 1, 1, none⟩ ∧
    (⟨1, 1, 1, none⟩ : PublicMetrics).quote_count = none ∧
    calculate_tweet_points ⟨some 0, [], none, some ⟨1, 1, 1, none⟩⟩ = .panic :=
  ⟨rfl, rfl,
   calculate_points_missing_quote ⟨some 0, [], none, some ⟨1, 1, 1, none⟩⟩ ⟨1, 1, 1, none⟩ rfl rfl⟩

/-! ### C7: scoring formula — exact below `2^64`, but overflow wraps silently -/

/-- C7 counterexample: at `like_count = 2^64 - 1`, `reply_count = 1`,
`quote_count = 0`, `retweet_count = 0` the weighted sum is `2^64`, and
`calculate_tweet_points` silently wraps to `Ok 0`; it does not fail with an
`ArithmeticOverflow` error. -/
theorem calculate_points_overflow_cex :
    calculate_tweet_points ⟨some 0, [], none, some ⟨0, 1, 2 ^ 64 - 1, some 0⟩⟩ = .ok 0 := by
  decide

/-- C7 amended: for every combination of engagement counts (as `u64` values) whose
weighted sum stays below `2^64`, the score equals
`like*W_like + reply*W_reply + quote*W_quote + retweet*W_retweet` with unit weights;
when the sum would exceed `2^64 - 1` the code wraps modulo `2^64` instead of failing
with `ArithmeticOverflow`. -/
theorem calculate_points_exact_below_u64 (tweet : Tweet) (m : PublicMetrics) (q : Nat)
    (hm : tweet.public_metrics = some m) (hq : m.quote_count = some q)
    (hl : m.like_count < 2 ^ 64) (hr : m.reply_count < 2 ^ 64)
    (hqv : q < 2 ^ 64) (hrt : m.retweet_count < 2 ^ 64)
    (hsum : m.like_count * LIKE_MULTIPLIER + m.reply_count * REPLY_MULTIPLIER
        + q * QUOTE_MULTIPLIER + m.retweet_count * RETWEET_MULTIPLIER < 2 ^ 64) :
    calculate_tweet_points tweet =
      .ok (m.like_count * LIKE_MULTIPLIER + m.reply_count * REPLY_MULTIPLIER
        + q * QUOTE_MULTIPLIER + m.retweet_count * RETWEET_MULTIPLIER) := by
  have hpow : (2 : Nat) ^ 64 = 18446744073709551616 := by norm_num
  simp only [LIKE_MULTIPLIER, REPLY_MULTIPLIER, QUOTE_MULTIPLIER, RETWEET_MULTIPLIER,
    Nat.mul_one, hpow] at hsum hl hr hqv hrt
  simp only [calculate_tweet_points, hm, hq, LIKE_MULTIPLIER, REPLY_MULTIPLIER,
    QUOTE_MULTIPLIER, RETWEET_MULTIPLIER, Nat.mul_one, hpow]
  exact congrArg Outcome.ok (by omega)

/-- Witness for the amended C7 at the spec's example metrics
`{like: 10, reply: 2, quote: 1, retweet: 3}`, scoring 16. -/
theorem calculate_points_exact_below_u64_witness :
    (⟨some 0, [], none, some ⟨3, 2, 10, some 1⟩⟩ : Tweet).public_metrics =
      some ⟨3, 2, 10, some 1⟩ ∧
    (⟨3, 2, 10, some 1⟩ : PublicMetrics).quote_count = some 1 ∧
    10 < 2 ^ 64 ∧ 2 < 2 ^ 64 ∧ 1 < 2 ^ 64 ∧ 3 < 2 ^ 64 ∧
    10 * LIKE_MULTIPLIER + 2 * REPLY_MULTIPLIER + 1 * QUOTE_MULTIPLIER
      + 3 * RETWEET_MULTIPLIER < 2 ^ 64 ∧
    calculate_tweet_points ⟨some 0, [], none, some ⟨3, 2, 10, some 1⟩⟩ =
      .ok (10 * LIKE_MULTIPLIER + 2 * REPLY_MULTIPLIER + 1 * QUOTE_MULTIPLIER
        + 3 * RETWEET_MULTIPLIER) :=
  ⟨rfl, rfl, by decide, by decide, by decide, by decide, by decide,
   calculate_points_exact_below_u64 ⟨some 0, [], none, some ⟨3, 2, 10, some 1⟩⟩
     ⟨3, 2, 10, some 1⟩ 1 rfl rfl (by decide) (by decide) (by decide) (by decide) (by decide)⟩

/-! ### C10: a recognized key with an unparsable value panics -/

/-- C10: decoding the valid-UTF-8 input `"PID=notanaddress"` does not return any
error of the documented taxonomy: the `Pubkey::from_str(...).unwrap()` on the
unparsable value panics the embedded function. -/
theorem decode_invalid_value_panics :
    ContainerParams.decode (strCodes "PID=notanaddress") = .panic := by decide

/-! ### Bridging lemmas between `applyPair` and entry actions -/

theorem applyPair_eq_runAct (f : RawFields) (e : List Nat) :
    applyPair f e = runAct f (entryAct e) := by
  unfold applyPair entryAct
  rcases hs : splitFirstEq e with _ | ⟨k1, _ | ⟨v, _ | ⟨t, tl⟩⟩⟩
  · simp [runAct]
  · simp [runAct]
  · simp only []
    split_ifs with h1 h2 h3 h4 h5 h6
    · cases hv : pubkeyFromStr v <;> simp [runAct]
    · cases hv : pubkeyFromStr v <;> simp [runAct]
    · cases hv : pubkeyFromStr v <;> simp [runAct]
    · cases hv : pubkeyFromStr v <;> simp [runAct]
    · simp [runAct]
    · cases hv : parseU64 v <;> simp [runAct]
    · simp [runAct]
  · simp [runAct]

theorem actKey_entryAct (e : List Nat) (k : List Nat)
    (h : actKey (entryAct e) = some k) : entryKey e = k := by
  rcases hs : splitFirstEq e with _ | ⟨k1, _ | ⟨v, _ | ⟨t, tl⟩⟩⟩ <;>
    simp only [entryAct, hs] at h
  · simp [actKey] at h
  · simp [actKey] at h
  · unfold entryKey
    rw [hs]
    simp only [List.headD]
    split_ifs at h with h1 h2 h3 h4 h5 h6
    · cases hv : pubkeyFromStr v <;> rw [hv] at h <;> simp [actKey] at h
      exact h1.trans h
    · cases hv : pubkeyFromStr v <;> rw [hv] at h <;> simp [actKey] at h
      exact h2.trans h
    · cases hv : pubkeyFromStr v <;> rw [hv] at h <;> simp [actKey] at h
      exact h3.trans h
    · cases hv : pubkeyFromStr v <;> rw [hv] at h <;> simp [actKey] at h
      exact h4.trans h
    · simp [actKey] at h
      exact h5.trans h
    · cases hv : parseU64 v <;> rw [hv] at h <;> simp [actKey] at h
      exact h6.trans h
    · simp [actKey] at h
  · simp [actKey] at h

/-- Two adjacent entries with different keys can be processed in either order. -/
theorem processEntries_swap (g : RawFields) (e1 e2 : List Nat) (es : List (List Nat))
    (h : entryKey e1 ≠ entryKey e2) :
    processEntries g (e1 :: e2 :: es) = processEntries g (e2 :: e1 :: es) := by
  simp only [processEntries, applyPair_eq_runAct]
  cases h1 : entryAct e1 <;> cases h2 : entryAct e2 <;>
    first
      | exact absurd ((actKey_entryAct e1 _ (by rw [h1]; rfl)).trans
          (actKey_entryAct e2 _ (by rw [h2]; rfl)).symm) h
      | simp [runAct]

theorem entryKey_of_setTid (e : List Nat) (n : Nat) (h : entryAct e = .setTid n) :
    entryKey e = strCodes "TWEET_ID" :=
  actKey_entryAct e _ (by rw [h]; rfl)

/-- A run of the decode loop over entries none of which has key `TWEET_ID` leaves
`tweet_id` unchanged. -/
theorem processEntries_tweet_id (es : List (List Nat)) :
    ∀ f g : RawFields, (∀ e ∈ es, entryKey e ≠ strCodes "TWEET_ID") →
      processEntries f es = .ok g → g.tweet_id = f.tweet_id := by
  induction es with
  | nil =>
    intro f g _ h
    simp only [processEntries] at h
    cases h
    rfl
  | cons e es ih =>
    intro f g hkeys h
    have hke : entryKey e ≠ strCodes "TWEET_ID" := hkeys e (List.mem_cons_self e es)
    have hrest : ∀ x ∈ es, entryKey x ≠ strCodes "TWEET_ID" :=
      fun x hx => hkeys x (List.mem_cons_of_mem e hx)
    simp only [processEntries, applyPair_eq_runAct] at h
    cases ha : entryAct e <;> rw [ha] at h <;> simp only [runAct] at h
    · exact ih f g hrest h
    · exact Outcome.noConfusion h
    · exact (ih _ g hrest h).trans rfl
    · exact (ih _ g hrest h).trans rfl
    · exact (ih _ g hrest h).trans rfl
    · exact (ih _ g hrest h).trans rfl
    · exact (ih _ g hrest h).trans rfl
    · exact absurd (entryKey_of_setTid e _ ha) hke

/-! ### C8: fixed validation order and the missing `TWEET_ID` case -/

/-- C8: the six required fields are validated against their defaults in the fixed
source order (PID, REALM_PDA, USER, USER_ACCOUNT_PDA, TWITTER_USERNAME, TWEET_ID)
and the first field still at its default is the one named in the returned error; in
particular, every input whose `TWEET_ID` pair is absent while the other five
required fields are validly set fails with the `TWEET_ID` missing-field error. -/
theorem decode_missing_tweet_id (bs cs : List Nat) (f : RawFields)
    (hutf : utf8Decode bs = some cs)
    (hrun : processEntries initFields (cs.splitOn 44) = .ok f)
    (hnotid : ∀ e ∈ cs.splitOn 44, entryKey e ≠ strCodes "TWEET_ID")
    (h1 : f.program_id ≠ pubkeyDefault) (h2 : f.realm_pda ≠ pubkeyDefault)
    (h3 : f.user ≠ pubkeyDefault) (h4 : f.user_account_pda ≠ pubkeyDefault)
    (h5 : f.twitter_username ≠ []) :
    ContainerParams.decode bs = .err "TWEET_ID cannot be undefined" ∧
    (∀ g : RawFields, g.program_id = pubkeyDefault →
      validateFields g = .err "PID cannot be undefined") ∧
    (∀ g : RawFields, g.program_id ≠ pubkeyDefault → g.realm_pda = pubkeyDefault →
      validateFields g = .err "REALM_PDA cannot be undefined") ∧
    (∀ g : RawFields, g.program_id ≠ pubkeyDefault → g.realm_pda ≠ pubkeyDefault →
      g.user = pubkeyDefault → validateFields g = .err "USER cannot be undefined") ∧
    (∀ g : RawFields, g.program_id ≠ pubkeyDefault → g.realm_pda ≠ pubkeyDefault →
      g.user ≠ pubkeyDefault → g.user_account_pda = pubkeyDefault →
      validateFields g = .err "USER_ACCOUNT_PDA cannot be undefined") ∧
    (∀ g : RawFields, g.program_id ≠ pubkeyDefault → g.realm_pda ≠ pubkeyDefault →
      g.user ≠ pubkeyDefault → g.user_account_pda ≠ pubkeyDefault →
      g.twitter_username = [] →
      validateFields g = .err "TWITTER_USERNAME cannot be undefined") ∧
    (∀ g : RawFields, g.program_id ≠ pubkeyDefault → g.realm_pda ≠ pubkeyDefault →
      g.user ≠ pubkeyDefault → g.user_account_pda ≠ pubkeyDefault →
      g.twitter_username ≠ [] → g.tweet_id = 0 →
      validateFields g = .err "TWEET_ID cannot be undefined") ∧
    (∀ g : RawFields, g.program_id ≠ pubkeyDefault → g.realm_pda ≠ pubkeyDefault →
      g.user ≠ pubkeyDefault → g.user_account_pda ≠ pubkeyDefault →
      g.twitter_username ≠ [] → g.tweet_id ≠ 0 →
      validateFields g = .ok ⟨g.program_id, g.realm_pda, g.user, g.user_account_pda,
        g.twitter_username, g.tweet_id⟩) := by
  refine ⟨?_, ?_, ?_, ?_, ?_, ?_, ?_, ?_⟩
  · have htid : f.tweet_id = 0 := by
      have hpres := processEntries_tweet_id (cs.splitOn 44) initFields f hnotid hrun
      simpa [initFields] using hpres
    simp only [ContainerParams.decode, hutf, decodeChars, hrun]
    simp only [validateFields]
    rw [if_neg h1, if_neg h2, if_neg h3, if_neg h4, if_neg h5, if_pos htid]
  · intro g hg
    simp only [validateFields]
    rw [if_pos hg]
  · intro g hg1 hg2
    simp only [validateFields]
    rw [if_neg hg1, if_pos hg2]
  · intro g hg1 hg2 hg3
    simp only [validateFields]
    rw [if_neg hg1, if_neg hg2, if_pos hg3]
  · intro g hg1 hg2 hg3 hg4
    simp only [validateFields]
    rw [if_neg hg1, if_neg hg2, if_neg hg3, if_pos hg4]
  · intro g hg1 hg2 hg3 hg4 hg5
    simp only [validateFields]
    rw [if_neg hg1, if_neg hg2, if_neg hg3, if_neg hg4, if_pos hg5]
  · intro g hg1 hg2 hg3 hg4 hg5 hg6
    simp only [validateFields]
    rw [if_neg hg1, if_neg hg2, if_neg hg3, if_neg hg4, if_neg hg5, if_pos hg6]
  · intro g hg1 hg2 hg3 hg4 hg5 hg6
    simp only [validateFields]
    rw [if_neg hg1, if_neg hg2, if_neg hg3, if_neg hg4, if_neg hg5, if_neg hg6]

set_option maxRecDepth 40000 in
/-- Witness for C8 at a concrete five-field input without a `TWEET_ID` pair. -/
theorem decode_missing_tweet_id_witness :
    utf8Decode noTweetIdInput = some noTweetIdInput ∧
    processEntries initFields (noTweetIdInput.splitOn 44) =
      .ok ⟨tokenProgramPk, tokenProgramPk, wrappedSolPk, tokenProgramPk,
           strCodes "elonmusk", 0⟩ ∧
    (noTweetIdInput.splitOn 44).all (fun e => entryKey e != strCodes "TWEET_ID") = true ∧
    tokenProgramPk ≠ pubkeyDefault ∧ wrappedSolPk ≠ pubkeyDefault ∧
    strCodes "elonmusk" ≠ ([] : List Nat) ∧
    ContainerParams.decode noTweetIdInput = .err "TWEET_ID cannot be undefined" :=
  ⟨by decide, by decide, by decide, by decide, by decide, by decide,
   (decode_missing_tweet_id noTweetIdInput noTweetIdInput
     ⟨tokenProgramPk, tokenProgramPk, wrappedSolPk, tokenProgramPk, strCodes "elonmusk", 0⟩
     (by decide) (by decide) (by decide) (by decide) (by decide) (by decide) (by decide)
     (by decide)).1⟩

/-! ### Character-level lemmas about well-formed base58 values -/

theorem alphabet_char_bounds : ∀ c ∈ base58Alphabet, c ≤ 127 ∧ c ≠ 44 ∧ c ≠ 61 := by
  decide

theorem mem_of_idxInList_isSome {c : Nat} :
    ∀ {l : List Nat}, (idxInList c l).isSome → c ∈ l := by
  intro l
  induction l with
  | nil => intro h; simp [idxInList] at h
  | cons a as ih =>
    intro h
    simp only [idxInList] at h
    by_cases hac : (a == c) = true
    · have hac' : a = c := by simpa using hac
      subst hac'
      exact List.mem_cons_self _ _
    · rw [if_neg hac] at h
      cases hi : idxInList c as with
      | none => rw [hi] at h; simp at h
      | some j => exact List.mem_cons_of_mem a (ih (by rw [hi]; rfl))

theorem b58Digits_chars : ∀ {s ds : List Nat}, b58Digits s = some ds →
    ∀ c ∈ s, c ∈ base58Alphabet := by
  intro s
  induction s with
  | nil => intro ds _ c hc; simp at hc
  | cons a as ih =>
    intro ds h c hc
    simp only [b58Digits] at h
    cases hv : b58DigitVal a with
    | none =>
      cases has : b58Digits as with
      | none => rw [hv, has] at h; simp at h
      | some ds' => rw [hv, has] at h; simp at h
    | some d =>
      cases has : b58Digits as with
      | none => rw [hv, has] at h; simp at h
      | some ds' =>
        rcases List.mem_cons.mp hc with hca | hc'
        · subst hca
          exact mem_of_idxInList_isSome (by unfold b58DigitVal at hv; rw [hv]; rfl)
        · exact ih has c hc'

theorem pubkeyFromStr_chars : ∀ {s : List Nat} {k : Pubkey}, pubkeyFromStr s = some k →
    ∀ c ∈ s, c ∈ base58Alphabet := by
  intro s k h c hc
  unfold pubkeyFromStr at h
  split at h
  · exact absurd h (by simp)
  · cases hd : b58Digits s with
    | none =>
      unfold bs58DecodeBytes at h
      rw [hd] at h
      simp at h
    | some ds => exact b58Digits_chars hd c hc

theorem pubkeyFromStr_char_props {s : List Nat} {k : Pubkey}
    (h : pubkeyFromStr s = some k) : ∀ c ∈ s, c ≤ 127 ∧ c ≠ 44 ∧ c ≠ 61 :=
  fun c hc => alphabet_char_bounds c (pubkeyFromStr_chars h c hc)

theorem utf8Decode_ascii : ∀ l : List Nat, (∀ c ∈ l, c ≤ 127) → utf8Decode l = some l := by
  intro l
  induction l with
  | nil => intro _; rfl
  | cons b rest ih =>
    intro h
    unfold utf8Decode
    rw [if_pos (h b (List.mem_cons_self b rest)),
      ih (fun c hc => h c (List.mem_cons_of_mem b hc))]
    rfl

/-! ### Splitting key/value entries -/

theorem takeWhile_keyval (val : List Nat) :
    ∀ key : List Nat, (61 : Nat) ∉ key →
      (key ++ 61 :: val).takeWhile (· != 61) = key := by
  intro key
  induction key with
  | nil => intro _; simp
  | cons a as ih =>
    intro hk
    have ha : a ≠ 61 := fun e => hk (e ▸ List.mem_cons_self a as)
    have has : (61 : Nat) ∉ as := fun m => hk (List.mem_cons_of_mem a m)
    simp only [List.cons_append]
    rw [List.takeWhile_cons_of_pos (by simp [ha]), ih has]

theorem dropWhile_keyval (val : List Nat) :
    ∀ key : List Nat, (61 : Nat) ∉ key →
      (key ++ 61 :: val).dropWhile (· != 61) = 61 :: val := by
  intro key
  induction key with
  | nil => intro _; simp
  | cons a as ih =>
    intro hk
    have ha : a ≠ 61 := fun e => hk (e ▸ List.mem_cons_self a as)
    have has : (61 : Nat) ∉ as := fun m => hk (List.mem_cons_of_mem a m)
    simp only [List.cons_append]
    rw [List.dropWhile_cons_of_pos (by simp [ha]), ih has]

theorem splitFirstEq_keyval (key val : List Nat) (hk : (61 : Nat) ∉ key) :
    splitFirstEq (key ++ 61 :: val) = [key, val] := by
  have hc : (key ++ 61 :: val).contains 61 = true :=
    List.elem_eq_true_of_mem (by simp)
  unfold splitFirstEq
  rw [if_pos hc, takeWhile_keyval val key hk, dropWhile_keyval val key hk]
  rfl

/-! ### The effect of each concrete entry of the duplicate-key input -/

theorem pubkeyFromStr_token : pubkeyFromStr tokenProgramStr = some tokenProgramPk := by
  decide

theorem pubkeyFromStr_wsol : pubkeyFromStr wrappedSolStr = some wrappedSolPk := by
  decide

theorem parseU64_tidLit :
    parseU64 (strCodes "1730464228400631814") = some 1730464228400631814 := by decide

theorem applyPair_pid (a : List Nat) (ka : Pubkey) (ha : pubkeyFromStr a = some ka)
    (f : RawFields) :
    applyPair f (strCodes "PID" ++ 61 :: a) = .ok { f with program_id := ka } := by
  simp only [applyPair, splitFirstEq_keyval _ _ (by decide : (61 : Nat) ∉ strCodes "PID"),
    ite_true, ha]

theorem applyPair_realm_token (f : RawFields) :
    applyPair f (strCodes "REALM_PDA=TokenkegQfeZyiNwAJbNbGKPFXCWuBvf9Ss623VQ5DA") =
      .ok { f with realm_pda := tokenProgramPk } := by
  have hsp : splitFirstEq (strCodes "REALM_PDA=TokenkegQfeZyiNwAJbNbGKPFXCWuBvf9Ss623VQ5DA")
      = [strCodes "REALM_PDA", tokenProgramStr] := by decide
  simp only [applyPair, hsp, ite_true, pubkeyFromStr_token]
  rw [if_neg (by decide)]

theorem applyPair_user_wsol (f : RawFields) :
    applyPair f (strCodes "USER=So11111111111111111111111111111111111111112") =
      .ok { f with user := wrappedSolPk } := by
  have hsp : splitFirstEq (strCodes "USER=So11111111111111111111111111111111111111112")
      = [strCodes "USER", wrappedSolStr] := by decide
  simp only [applyPair, hsp, ite_true, pubkeyFromStr_wsol]
  rw [if_neg (by decide), if_neg (by decide)]

theorem applyPair_uap_token (f : RawFields) :
    applyPair f (strCodes "USER_ACCOUNT_PDA=TokenkegQfeZyiNwAJbNbGKPFXCWuBvf9Ss623VQ5DA") =
      .ok { f with user_account_pda := tokenProgramPk } := by
  have hsp : splitFirstEq
      (strCodes "USER_ACCOUNT_PDA=TokenkegQfeZyiNwAJbNbGKPFXCWuBvf9Ss623VQ5DA")
      = [strCodes "USER_ACCOUNT_PDA", tokenProgramStr] := by decide
  simp only [applyPair, hsp, ite_true, pubkeyFromStr_token]
  rw [if_neg (by decide), if_neg (by decide), if_neg (by decide)]

theorem applyPair_uname_elonmusk (f : RawFields) :
    applyPair f (strCodes "TWITTER_USERNAME=elonmusk") =
      .ok { f with twitter_username := strCodes "elonmusk" } := by
  have hsp : splitFirstEq (strCodes "TWITTER_USERNAME=elonmusk")
      = [strCodes "TWITTER_USERNAME", strCodes "elonmusk"] := by decide
  simp only [applyPair, hsp, ite_true]
  rw [if_neg (by decide), if_neg (by decide), if_neg (by decide), if_neg (by decide)]

theorem applyPair_tid_lit (f : RawFields) :
    applyPair f (strCodes "TWEET_ID=1730464228400631814") =
      .ok { f with tweet_id := 1730464228400631814 } := by
  have hsp : splitFirstEq (strCodes "TWEET_ID=1730464228400631814")
      = [strCodes "TWEET_ID", strCodes "1730464228400631814"] := by decide
  simp only [applyPair, hsp, ite_true, parseU64_tidLit]
  rw [if_neg (by decide), if_neg (by decide), if_neg (by decide), if_neg (by decide),
    if_neg (by decide)]

/-! ### C9: duplicate recognized keys are last-write-wins, order independent otherwise -/

set_option maxRecDepth 40000 in
/-- C9: for every pair of valid addresses `A`, `B`, decoding
`"PID=A,PID=B,<other required fields>"` succeeds with `program_id = B` (the last
occurrence of a recognized key wins), and processing two adjacent entries with
different keys commutes, so decoding is otherwise order-independent for recognized
keys. -/
theorem decode_duplicate_pid_last_wins (a b : List Nat) (ka kb : Pubkey)
    (ha : pubkeyFromStr a = some ka) (hb : pubkeyFromStr b = some kb)
    (hkb : kb ≠ pubkeyDefault) :
    ContainerParams.decode
        (strCodes "PID=" ++ a ++ strCodes ",PID=" ++ b ++ otherFieldsStr) =
      .ok ⟨kb, tokenProgramPk, wrappedSolPk, tokenProgramPk, strCodes "elonmusk",
           1730464228400631814⟩ ∧
    (∀ (g : RawFields) (e1 e2 : List Nat) (es : List (List Nat)),
      entryKey e1 ≠ entryKey e2 →
      processEntries g (e1 :: e2 :: es) = processEntries g (e2 :: e1 :: es)) := by
  refine ⟨?_, fun g e1 e2 es h => processEntries_swap g e1 e2 es h⟩
  have hpa := pubkeyFromStr_char_props ha
  have hpb := pubkeyFromStr_char_props hb
  have hX : ∀ x ∈ strCodes "PID", x ≤ 127 ∧ x ≠ 44 := by decide
  have hZ : ∀ x ∈ strCodes "REALM_PDA=TokenkegQfeZyiNwAJbNbGKPFXCWuBvf9Ss623VQ5DA,USER=So11111111111111111111111111111111111111112,USER_ACCOUNT_PDA=TokenkegQfeZyiNwAJbNbGKPFXCWuBvf9Ss623VQ5DA,TWITTER_USERNAME=elonmusk,TWEET_ID=1730464228400631814",
      x ≤ 127 := by decide
  have hform : strCodes "PID=" ++ a ++ strCodes ",PID=" ++ b ++ otherFieldsStr =
      (strCodes "PID" ++ 61 :: a) ++ 44 :: ((strCodes "PID" ++ 61 :: b) ++ 44 ::
        strCodes "REALM_PDA=TokenkegQfeZyiNwAJbNbGKPFXCWuBvf9Ss623VQ5DA,USER=So11111111111111111111111111111111111111112,USER_ACCOUNT_PDA=TokenkegQfeZyiNwAJbNbGKPFXCWuBvf9Ss623VQ5DA,TWITTER_USERNAME=elonmusk,TWEET_ID=1730464228400631814") := by
    rw [(by decide : strCodes "PID=" = strCodes "PID" ++ [61]),
        (by decide : strCodes ",PID=" = 44 :: (strCodes "PID" ++ [61])),
        (by decide : otherFieldsStr = 44 ::
          strCodes "REALM_PDA=TokenkegQfeZyiNwAJbNbGKPFXCWuBvf9Ss623VQ5DA,USER=So11111111111111111111111111111111111111112,USER_ACCOUNT_PDA=TokenkegQfeZyiNwAJbNbGKPFXCWuBvf9Ss623VQ5DA,TWITTER_USERNAME=elonmusk,TWEET_ID=1730464228400631814")]
    simp [List.append_assoc]
  rw [hform]
  have hascii : ∀ c ∈ (strCodes "PID" ++ 61 :: a) ++ 44 ::
      ((strCodes "PID" ++ 61 :: b) ++ 44 ::
        strCodes "REALM_PDA=TokenkegQfeZyiNwAJbNbGKPFXCWuBvf9Ss623VQ5DA,USER=So11111111111111111111111111111111111111112,USER_ACCOUNT_PDA=TokenkegQfeZyiNwAJbNbGKPFXCWuBvf9Ss623VQ5DA,TWITTER_USERNAME=elonmusk,TWEET_ID=1730464228400631814"),
      c ≤ 127 := by
    intro c hc
    rcases List.mem_append.mp hc with h1 | h1
    · rcases List.mem_append.mp h1 with h2 | h2
      · exact (hX c h2).1
      · rcases List.mem_cons.mp h2 with h3 | h3
        · subst h3; decide
        · exact (hpa c h3).1
    · rcases List.mem_cons.mp h1 with h2 | h2
      · subst h2; decide
      · rcases List.mem_append.mp h2 with h3 | h3
        · rcases List.mem_append.mp h3 with h4 | h4
          · exact (hX c h4).1
          · rcases List.mem_cons.mp h4 with h5 | h5
            · subst h5; decide
            · exact (hpb c h5).1
        · rcases List.mem_cons.mp h3 with h4 | h4
          · subst h4; decide
          · exact hZ c h4
  have h44a : ∀ x ∈ strCodes "PID" ++ 61 :: a, ¬((x == (44 : Nat)) = true) := by
    intro x hx
    simp only [beq_iff_eq]
    rcases List.mem_append.mp hx with h1 | h1
    · exact (hX x h1).2
    · rcases List.mem_cons.mp h1 with h2 | h2
      · subst h2; decide
      · exact (hpa x h2).2.1
  have h44b : ∀ x ∈ strCodes "PID" ++ 61 :: b, ¬((x == (44 : Nat)) = true) := by
    intro x hx
    simp only [beq_iff_eq]
    rcases List.mem_append.mp hx with h1 | h1
    · exact (hX x h1).2
    · rcases List.mem_cons.mp h1 with h2 | h2
      · subst h2; decide
      · exact (hpb x h2).2.1
  have hsplit : ((strCodes "PID" ++ 61 :: a) ++ 44 :: ((strCodes "PID" ++ 61 :: b) ++ 44 ::
      strCodes "REALM_PDA=TokenkegQfeZyiNwAJbNbGKPFXCWuBvf9Ss623VQ5DA,USER=So11111111111111111111111111111111111111112,USER_ACCOUNT_PDA=TokenkegQfeZyiNwAJbNbGKPFXCWuBvf9Ss623VQ5DA,TWITTER_USERNAME=elonmusk,TWEET_ID=1730464228400631814")).splitOn 44 =
      (strCodes "PID" ++ 61 :: a) :: (strCodes "PID" ++ 61 :: b) ::
      [strCodes "REALM_PDA=TokenkegQfeZyiNwAJbNbGKPFXCWuBvf9Ss623VQ5DA",
       strCodes "USER=So11111111111111111111111111111111111111112",
       strCodes "USER_ACCOUNT_PDA=TokenkegQfeZyiNwAJbNbGKPFXCWuBvf9Ss623VQ5DA",
       strCodes "TWITTER_USERNAME=elonmusk",
       strCodes "TWEET_ID=1730464228400631814"] := by
    simp only [List.splitOn]
    rw [List.splitOnP_first _ _ h44a 44 rfl, List.splitOnP_first _ _ h44b 44 rfl]
    rw [(by decide :
      (strCodes "REALM_PDA=TokenkegQfeZyiNwAJbNbGKPFXCWuBvf9Ss623VQ5DA,USER=So11111111111111111111111111111111111111112,USER_ACCOUNT_PDA=TokenkegQfeZyiNwAJbNbGKPFXCWuBvf9Ss623VQ5DA,TWITTER_USERNAME=elonmusk,TWEET_ID=1730464228400631814").splitOnP
          (· == (44 : Nat)) =
        [strCodes "REALM_PDA=TokenkegQfeZyiNwAJbNbGKPFXCWuBvf9Ss623VQ5DA",
         strCodes "USER=So11111111111111111111111111111111111111112",
         strCodes "USER_ACCOUNT_PDA=TokenkegQfeZyiNwAJbNbGKPFXCWuBvf9Ss623VQ5DA",
         strCodes "TWITTER_USERNAME=elonmusk",
         strCodes "TWEET_ID=1730464228400631814"])]
  simp only [ContainerParams.decode, utf8Decode_ascii _ hascii]
  simp only [decodeChars, hsplit]
  simp only [processEntries, applyPair_pid a ka ha, applyPair_pid b kb hb,
    applyPair_realm_token, applyPair_user_wsol, applyPair_uap_token,
    applyPair_uname_elonmusk, applyPair_tid_lit]
  show validateFields ⟨kb, tokenProgramPk, wrappedSolPk, tokenProgramPk,
      strCodes "elonmusk", 1730464228400631814⟩ = _
  simp only [validateFields]
  rw [if_neg hkb, if_neg (by decide), if_neg (by decide), if_neg (by decide),
      if_neg (by decide), if_neg (by decide)]

set_option maxRecDepth 40000 in
/-- Witness for C9 with `A` the token program address and `B` the wrapped-SOL mint. -/
theorem decode_duplicate_pid_last_wins_witness :
    pubkeyFromStr tokenProgramStr = some tokenProgramPk ∧
    pubkeyFromStr wrappedSolStr = some wrappedSolPk ∧
    wrappedSolPk ≠ pubkeyDefault ∧
    ContainerParams.decode (strCodes "PID=" ++ tokenProgramStr ++ strCodes ",PID=" ++
        wrappedSolStr ++ otherFieldsStr) =
      .ok ⟨wrappedSolPk, tokenProgramPk, wrappedSolPk, tokenProgramPk,
           strCodes "elonmusk", 1730464228400631814⟩ :=
  ⟨by decide, by decide, by decide,
   (decode_duplicate_pid_last_wins tokenProgramStr wrappedSolStr tokenProgramPk
     wrappedSolPk (by decide) (by decide) (by decide)).1⟩

end Vortex
